import Mathlib

/-!
Verification of the layered guardrail pipeline (input / output / combined
tool variants) against its specification.

Python strings are embedded as lists of characters (`Str`), and the string
operations the source uses (str.strip, str.lower, str.replace with an empty
replacement, str.split, str.startswith, the `in` substring test) are defined
below on that representation, restricted to the ASCII fragment the pipeline
manipulates.  Fallible collaborator calls (the text-completion oracle, the
agent, the record store) are modelled with `Except`; the parsers and the
per-request orchestrator loop bodies of the three pipeline variants are
translated as total functions.
-/

namespace Guardrails

/-- Python strings, embedded as lists of characters. -/
abbrev Str := List Char

/-- The ASCII whitespace characters recognised by str.strip with no
argument — space, tab, newline, carriage return, vertical tab, form feed
(the source only ever manipulates ASCII text). -/
def isSpaceChar (c : Char) : Bool :=
  decide (c.toNat = 32 ∨ c.toNat = 9 ∨ c.toNat = 10 ∨ c.toNat = 13 ∨
    c.toNat = 11 ∨ c.toNat = 12)

/-- Is the character an ASCII uppercase letter. -/
def isUpperChar (c : Char) : Bool :=
  decide (65 ≤ c.toNat ∧ c.toNat ≤ 90)

/-- ASCII fragment of the case mapping performed by str.lower on each
character. -/
def pyCharLower (c : Char) : Char :=
  if 65 ≤ c.toNat ∧ c.toNat ≤ 90 then Char.ofNat (c.toNat + 32) else c

/-- str.lower. -/
def pyLower (s : Str) : Str := s.map pyCharLower

/-- Remove trailing whitespace (the right half of str.strip). -/
def stripRight (s : Str) : Str := (s.reverse.dropWhile isSpaceChar).reverse

/-- str.strip with no argument: drop leading and trailing whitespace. -/
def pyStrip (s : Str) : Str := stripRight (s.dropWhile isSpaceChar)

/-- str.strip with the character set "[]": drop leading and trailing
square brackets. -/
def pyStripBrackets (s : Str) : Str :=
  let isBr : Char → Bool := fun c => c == '[' || c == ']'
  ((s.dropWhile isBr).reverse.dropWhile isBr).reverse

/-- Is `p` a leading segment of `s` (str.startswith, and the matching step
of str.replace). -/
def isPre : Str → Str → Bool
  | [], _ => true
  | _ :: _, [] => false
  | p :: ps, c :: cs => p == c && isPre ps cs

/-- The Python substring test `pat in s`. -/
def containsSub (pat : Str) : Str → Bool
  | [] => isPre pat []
  | c :: t => isPre pat (c :: t) || containsSub pat t

/-- Single pass of str.replace(pat, ""): while `skip` is positive the
current character belongs to an occurrence already matched and is dropped;
at `skip = 0` the next occurrence is looked for. -/
def removeAllGo (pat : Str) : Nat → Str → Str
  | _, [] => []
  | skip + 1, _ :: t => removeAllGo pat skip t
  | 0, c :: t =>
    if isPre pat (c :: t) then removeAllGo pat (pat.length - 1) t
    else c :: removeAllGo pat 0 t

/-- str.replace(pat, ""): delete every (left-to-right, non-overlapping)
occurrence of `pat`.  The source only calls replace with non-empty literal
patterns, so the empty-pattern case is irrelevant here. -/
def removeAll (pat : Str) (s : Str) : Str := removeAllGo pat 0 s

/-- str.split(sep) for a one-character separator, with Python semantics:
the empty string yields one empty piece, and separators at the ends yield
empty pieces. -/
def splitOnChar (sep : Char) : Str → List Str
  | [] => [[]]
  | c :: t =>
    if c = sep then [] :: splitOnChar sep t
    else
      match splitOnChar sep t with
      | [] => [[c]]
      | h :: r => (c :: h) :: r

/-- sep.join(xs). -/
def joinSep (sep : Str) : List Str → Str
  | [] => []
  | [x] => x
  | x :: y :: r => x ++ sep ++ joinSep sep (y :: r)

/-- Rendering of an optional string by a Python f-string: None prints as
the text "None". -/
def renderOpt : Option Str → Str
  | some s => s
  | none => "None".data

/-! ## The verdict data model (section 3 of the specification). -/

/-- AuthorizationVerdict: the structured result of parse_guardrail_response
(dict keys authorized, reason, sensitive_fields, sql_query). -/
structure AuthVerdict where
  authorized : Bool
  reason : Str
  sensitive_fields : List Str
  sql_query : Option Str
deriving DecidableEq

/-- The default (fail-closed) authorization verdict initialised at the top
of parse_guardrail_response. -/
def guardrailDefault : AuthVerdict :=
  { authorized := false
    reason := "Invalid response format".data
    sensitive_fields := []
    sql_query := none }

/-- The record built by the except branch of parse_guardrail_response when
parsing raises with message `e`. -/
def authParseFailure (e : Str) : AuthVerdict :=
  { authorized := false
    reason := "Error parsing response: ".data ++ e
    sensitive_fields := []
    sql_query := none }

/-- Dispatch of one already-normalized (stripped and lowercased) line of
parse_guardrail_response on the first matching field keyword; empty and
unmatched lines leave the record unchanged. -/
def guardrailStepN (r : AuthVerdict) (line : Str) : AuthVerdict :=
  if line = [] then r
  else if isPre "authorized:".data line then
    { r with authorized := containsSub "true".data line }
  else if isPre "reason:".data line then
    { r with reason := pyStrip (removeAll "reason:".data line) }
  else if isPre "sensitive_fields:".data line then
    if pyStrip (removeAll "sensitive_fields:".data line) ≠ [] ∧
        pyStrip (removeAll "sensitive_fields:".data line) ≠ "[]".data then
      { r with sensitive_fields := List.map pyStrip (splitOnChar ','
          (pyStripBrackets (pyStrip (removeAll "sensitive_fields:".data line)))) }
    else r
  else if isPre "sql_query:".data line then
    if pyStrip (removeAll "sql_query:".data line) ≠ [] ∧
        pyLower (pyStrip (removeAll "sql_query:".data line)) ≠ "null".data then
      { r with sql_query := some (pyStrip (removeAll "sql_query:".data line)) }
    else r
  else r

/-- One iteration of the line loop of parse_guardrail_response: strip and
lowercase the line, then dispatch. -/
def guardrailStep (r : AuthVerdict) (rawLine : Str) : AuthVerdict :=
  guardrailStepN r (pyLower (pyStrip rawLine))

/-- The try-block body of parse_guardrail_response.  Every operation it
performs (split, strip, lower, replace, startswith, list building) is total
on strings, so the body always returns normally; the Except codomain
records that it sits inside a try/except boundary. -/
def parse_guardrail_body (s : Str) : Except Str AuthVerdict :=
  .ok ((splitOnChar '\n' s).foldl guardrailStep guardrailDefault)

/-- parse_guardrail_response (identical in input_guardrail.py,
output_guardrail.py and tool_guardrail.py): run the body, and resolve any
exception to the fail-closed record. -/
def parse_guardrail_response (s : Str) : AuthVerdict :=
  match parse_guardrail_body s with
  | .ok r => r
  | .error e => authParseFailure e

example :
    parse_guardrail_response ("authorized: true\nreason: ok\nsensitive_fields: [a, b]\nsql_query: select 1").data
      = { authorized := true, reason := "ok".data,
          sensitive_fields := ["a".data, "b".data],
          sql_query := some "select 1".data } := by decide

example : parse_guardrail_response "".data = guardrailDefault := by decide

/-- SafetyVerdict: the structured result of parse_verification_response
(dict keys safe, reason, suggested_query), shared by output_guardrail.py
and tool_guardrail.py. -/
structure SafetyVerdict where
  safe : Bool
  reason : Str
  suggested_query : Option Str
deriving DecidableEq

/-- The default (fail-closed) safety verdict of parse_verification_response. -/
def verificationDefault : SafetyVerdict :=
  { safe := false
    reason := "Invalid response format".data
    suggested_query := none }

/-- The record built by the except branch of parse_verification_response. -/
def verificationParseFailure (e : Str) : SafetyVerdict :=
  { safe := false
    reason := "Error parsing response: ".data ++ e
    suggested_query := none }

/-- Dispatch of one normalized line of parse_verification_response. -/
def verificationStepN (r : SafetyVerdict) (line : Str) : SafetyVerdict :=
  if line = [] then r
  else if isPre "safe:".data line then
    { r with safe := containsSub "true".data line }
  else if isPre "reason:".data line then
    { r with reason := pyStrip (removeAll "reason:".data line) }
  else if isPre "suggested_query:".data line then
    if pyStrip (removeAll "suggested_query:".data line) ≠ [] ∧
        pyLower (pyStrip (removeAll "suggested_query:".data line)) ≠ "null".data then
      { r with suggested_query := some (pyStrip (removeAll "suggested_query:".data line)) }
    else r
  else r

/-- One iteration of the line loop of parse_verification_response. -/
def verificationStep (r : SafetyVerdict) (rawLine : Str) : SafetyVerdict :=
  verificationStepN r (pyLower (pyStrip rawLine))

/-- The try-block body of parse_verification_response; total for the same
reason as parse_guardrail_body. -/
def parse_verification_body (s : Str) : Except Str SafetyVerdict :=
  .ok ((splitOnChar '\n' s).foldl verificationStep verificationDefault)

/-- parse_verification_response of output_guardrail.py / tool_guardrail.py. -/
def parse_verification_response (s : Str) : SafetyVerdict :=
  match parse_verification_body s with
  | .ok r => r
  | .error e => verificationParseFailure e

/-- SanitizationVerdict: the structured result of
parse_output_guardrail_response (dict keys safe, reason,
sanitized_response, original_response). -/
structure SanVerdict where
  safe : Bool
  reason : Str
  sanitized_response : Option Str
  original_response : Option Str
deriving DecidableEq

/-- The default (fail-closed) sanitization verdict of
parse_output_guardrail_response. -/
def outputDefault : SanVerdict :=
  { safe := false
    reason := "Invalid response format".data
    sanitized_response := none
    original_response := none }

/-- The record built by the except branch of
parse_output_guardrail_response when parsing raises with message `e`. -/
def sanParseFailure (e : Str) : SanVerdict :=
  { safe := false
    reason := "Error parsing response: ".data ++ e
    sanitized_response := none
    original_response := none }

/-- Dispatch of one normalized line of parse_output_guardrail_response. -/
def outputStepN (r : SanVerdict) (line : Str) : SanVerdict :=
  if line = [] then r
  else if isPre "safe:".data line then
    { r with safe := containsSub "true".data line }
  else if isPre "reason:".data line then
    { r with reason := pyStrip (removeAll "reason:".data line) }
  else if isPre "sanitized_response:".data line then
    if pyStrip (removeAll "sanitized_response:".data line) ≠ [] ∧
        pyLower (pyStrip (removeAll "sanitized_response:".data line)) ≠ "null".data then
      { r with sanitized_response := some (pyStrip (removeAll "sanitized_response:".data line)) }
    else r
  else if isPre "original_response:".data line then
    if pyStrip (removeAll "original_response:".data line) ≠ [] ∧
        pyLower (pyStrip (removeAll "original_response:".data line)) ≠ "null".data then
      { r with original_response := some (pyStrip (removeAll "original_response:".data line)) }
    else r
  else r

/-- One iteration of the line loop of parse_output_guardrail_response. -/
def outputStep (r : SanVerdict) (rawLine : Str) : SanVerdict :=
  outputStepN r (pyLower (pyStrip rawLine))

/-- The try-block body of parse_output_guardrail_response; total for the
same reason as parse_guardrail_body. -/
def parse_output_body (s : Str) : Except Str SanVerdict :=
  .ok ((splitOnChar '\n' s).foldl outputStep outputDefault)

/-- parse_output_guardrail_response of output_guardrail.py. -/
def parse_output_guardrail_response (s : Str) : SanVerdict :=
  match parse_output_body s with
  | .ok r => r
  | .error e => sanParseFailure e

/-- The combined verdict of parse_combined_response in tool_guardrail.py
(authorization and SQL-safety fields in one record). -/
structure CombinedVerdict where
  authorized : Bool
  reason : Str
  sensitive_fields : List Str
  sql_query : Option Str
  safe : Bool
  sql_reason : Str
  suggested_query : Option Str
deriving DecidableEq

/-- The default (fail-closed) combined verdict of parse_combined_response. -/
def combinedDefault : CombinedVerdict :=
  { authorized := false
    reason := "Invalid response format".data
    sensitive_fields := []
    sql_query := none
    safe := false
    sql_reason := "Invalid response format".data
    suggested_query := none }

/-- Dispatch of one normalized line of parse_combined_response, with the
elif chain in source order (authorized, reason, sensitive_fields,
sql_query, safe, sql_reason, suggested_query). -/
def combinedStepN (r : CombinedVerdict) (line : Str) : CombinedVerdict :=
  if line = [] then r
  else if isPre "authorized:".data line then
    { r with authorized := containsSub "true".data line }
  else if isPre "reason:".data line then
    { r with reason := pyStrip (removeAll "reason:".data line) }
  else if isPre "sensitive_fields:".data line then
    if pyStrip (removeAll "sensitive_fields:".data line) ≠ [] ∧
        pyStrip (removeAll "sensitive_fields:".data line) ≠ "[]".data then
      { r with sensitive_fields := List.map pyStrip (splitOnChar ','
          (pyStripBrackets (pyStrip (removeAll "sensitive_fields:".data line)))) }
    else r
  else if isPre "sql_query:".data line then
    if pyStrip (removeAll "sql_query:".data line) ≠ [] ∧
        pyLower (pyStrip (removeAll "sql_query:".data line)) ≠ "null".data then
      { r with sql_query := some (pyStrip (removeAll "sql_query:".data line)) }
    else r
  else if isPre "safe:".data line then
    { r with safe := containsSub "true".data line }
  else if isPre "sql_reason:".data line then
    { r with sql_reason := pyStrip (removeAll "sql_reason:".data line) }
  else if isPre "suggested_query:".data line then
    if pyStrip (removeAll "suggested_query:".data line) ≠ [] ∧
        pyLower (pyStrip (removeAll "suggested_query:".data line)) ≠ "null".data then
      { r with suggested_query := some (pyStrip (removeAll "suggested_query:".data line)) }
    else r
  else r

/-- One iteration of the line loop of parse_combined_response. -/
def combinedStep (r : CombinedVerdict) (rawLine : Str) : CombinedVerdict :=
  combinedStepN r (pyLower (pyStrip rawLine))

/-- The try-block body of parse_combined_response; total for the same
reason as parse_guardrail_body. -/
def parse_combined_body (s : Str) : Except Str CombinedVerdict :=
  .ok ((splitOnChar '\n' s).foldl combinedStep combinedDefault)

/-- parse_combined_response of tool_guardrail.py. -/
def parse_combined_response (s : Str) : CombinedVerdict :=
  match parse_combined_body s with
  | .ok r => r
  | .error e =>
    { authorized := false
      reason := "Error parsing response: ".data ++ e
      sensitive_fields := []
      sql_query := none
      safe := false
      sql_reason := "Error parsing response: ".data ++ e
      suggested_query := none }

/-! ## The Execution Boundary (query_database). -/

/-- Behaviour of the record store on one query, as seen inside
query_database: a cursor yielding a column count and rows of nullable,
already-stringified cell values, a raised sqlite3.Error, or another raised
exception. -/
inductive DBOutcome where
  | rows (ncols : Nat) (results : List (List (Option Str)))
  | sqliteError (e : Str)
  | otherError (e : Str)
deriving DecidableEq

/-- Result formatting of query_database (identical in all three files):
empty result sets, the bare first value for single-column results, and
" | "-joined rows on newline-separated lines otherwise.  `ncols` is the
length of cursor.description; rows are assumed well-shaped (each of length
`ncols`), as sqlite3 guarantees. -/
def query_database_fmt (ncols : Nat) (results : List (List (Option Str))) : Str :=
  if results = [] then "No results found.".data
  else if ncols = 1 then
    match (results.headD []).headD none with
    | none => "No data available".data
    | some v => v
  else
    joinSep "\n".data
      (results.map (fun row =>
        joinSep " | ".data (row.map (fun v => v.getD "N/A".data))))

/-- query_database: format the cursor results, catching sqlite3.Error and
any other exception into the corresponding error strings (the function
never raises). -/
def query_database (d : DBOutcome) : Str :=
  match d with
  | .rows n rs => query_database_fmt n rs
  | .sqliteError e => "Database error: ".data ++ e
  | .otherError e => "Error executing query: ".data ++ e

example : query_database (.rows 1 [[some "9 Elm St".data]]) = "9 Elm St".data := by decide
example : query_database (.rows 2 [[none, some "x".data], [some "y".data, none]])
    = "N/A | x\ny | N/A".data := by decide
example : query_database (.rows 3 []) = "No results found.".data := by decide

/-! ## The per-request orchestrator loops of the three pipeline variants. -/

/-- The opening-brace character. -/
def lbrace : Char := Char.ofNat 123

/-- The closing-brace character. -/
def rbrace : Char := Char.ofNat 125

/-- Helper for the format call below; a positive `skip` drops characters
already consumed by a substituted placeholder or escape. -/
def pyFormatGo (uid : Nat) : Nat → Str → Except Str Str
  | _, [] => .ok []
  | skip + 1, _ :: t => pyFormatGo uid skip t
  | 0, c :: t =>
    if c = lbrace then
      if isPre ("current_user.id".data ++ [rbrace]) t then
        (pyFormatGo uid 16 t).map (fun r => (Nat.repr uid).data ++ r)
      else if t.headD ' ' = lbrace then
        (pyFormatGo uid 1 t).map (fun r => lbrace :: r)
      else .error "Invalid format string".data
    else if c = rbrace then
      if t.headD ' ' = rbrace then (pyFormatGo uid 1 t).map (fun r => rbrace :: r)
      else .error "Single brace encountered in format string".data
    else (pyFormatGo uid 0 t).map (fun r => c :: r)

/-- Model of sql_query.format(current_user=current_user) in the input and
output variants: brace-free text passes through unchanged, the
current-user-id placeholder that the authorization prompt instructs the
oracle to use is substituted with the id, doubled braces escape to a
literal brace, and every other brace construct is modelled as the
formatting call raising (Python raises KeyError / ValueError there, which
the loop catches in its except branch). -/
def pyFormatCU (uid : Nat) (s : Str) : Except Str Str := pyFormatGo uid 0 s

/-- The pipeline stages of one request (specification section 4.5),
restricted to those distinguishable in the loop bodies. -/
inductive Stage where
  | authorizing
  | denied
  | verifyingSafety
  | blocked
  | executing
  | sanitizing
  | agentCall
  | responded
  | errored
deriving DecidableEq

/-- Observable outcome of one loop iteration: the stages passed through in
order, the lines printed to the requester, and the query string handed to
query_database, if any. -/
structure RunOut where
  trace : List Stage
  printed : List Str
  executedQuery : Option Str
deriving DecidableEq

/-- The two lines printed by the except branch of each main loop. -/
def errLines (e : Str) : List Str :=
  ["Error: ".data ++ e, "Let\x27s try that again.".data]

/-- The denial message block shared by the loop bodies. -/
def denialLines (reason : Str) (sens : List Str) : List Str :=
  ["Access Denied: ".data ++ reason] ++
    (if sens ≠ [] then
      ["Sensitive fields detected: ".data ++ joinSep ", ".data sens]
    else [])

/-- The blocked-query message block of the safety-verification stage. -/
def blockedLines (reason : Str) (sug : Option Str) : List Str :=
  ["SQL Query Blocked: ".data ++ reason] ++
    (match sug with
     | some sg => ["Suggested safe query: ".data ++ sg]
     | none => [])

/-- The response block of the SQL path of output_guardrail.py main (lines
560-564): both branches print the parsed sanitized_response field. -/
def sqlPathRespond (o : SanVerdict) : List Str :=
  if ¬ o.safe then
    ["Output Sanitized: ".data ++ o.reason,
     "AI: ".data ++ renderOpt o.sanitized_response]
  else
    ["AI: ".data ++ renderOpt o.sanitized_response]

/-- The message content chosen on the agent path of output_guardrail.py
main (line 577): sanitized_response when unsafe, the raw agent output
when safe. -/
def agentAiContent (rawOut : Str) (o : SanVerdict) : Str :=
  if ¬ o.safe then renderOpt o.sanitized_response else rawOut

/-- One iteration of the main loop of input_guardrail.py, for request
`inp` by the principal with id `uid`.  The collaborators (authorization
oracle, record store, agent) are passed as functions whose Except results
model a normal return or a raised exception; any raise lands in the
except branch that prints the retry prompt. -/
def inputRun (uid : Nat) (inp : Str) (authOracle : Str → Except Str Str)
    (db : Str → DBOutcome) (agent : Str → Except Str Str) : RunOut :=
  match authOracle inp with
  | .error e => { trace := [.errored], printed := errLines e, executedQuery := none }
  | .ok atext =>
    let g := parse_guardrail_response atext
    if ¬ g.authorized then
      { trace := [.authorizing, .denied]
        printed := denialLines g.reason g.sensitive_fields
        executedQuery := none }
    else
      match g.sql_query with
      | some q =>
        match pyFormatCU uid q with
        | .error e =>
          { trace := [.authorizing, .errored], printed := errLines e, executedQuery := none }
        | .ok sq =>
          { trace := [.authorizing, .executing, .responded]
            printed := ["AI: ".data ++ query_database (db sq)]
            executedQuery := some sq }
      | none =>
        match agent inp with
        | .error e =>
          { trace := [.authorizing, .errored], printed := errLines e, executedQuery := none }
        | .ok out =>
          { trace := [.authorizing, .agentCall, .responded]
            printed := ["AI: ".data ++ out]
            executedQuery := none }

/-- One iteration of the main loop of output_guardrail.py: authorization,
SQL verification, execution, then the output guardrail on the executed
result (SQL path) or on the agent output (fallback path). -/
def outputRun (uid : Nat) (inp : Str)
    (authOracle verifOracle : Str → Except Str Str)
    (db : Str → DBOutcome) (outOracle : Str → Except Str Str)
    (agent : Str → Except Str Str) : RunOut :=
  match authOracle inp with
  | .error e => { trace := [.errored], printed := errLines e, executedQuery := none }
  | .ok atext =>
    let g := parse_guardrail_response atext
    if ¬ g.authorized then
      { trace := [.authorizing, .denied]
        printed := denialLines g.reason g.sensitive_fields
        executedQuery := none }
    else
      match g.sql_query with
      | some q =>
        match pyFormatCU uid q with
        | .error e =>
          { trace := [.authorizing, .errored], printed := errLines e, executedQuery := none }
        | .ok sq =>
          match verifOracle sq with
          | .error e =>
            { trace := [.authorizing, .verifyingSafety, .errored]
              printed := errLines e, executedQuery := none }
          | .ok vtext =>
            let v := parse_verification_response vtext
            if ¬ v.safe then
              { trace := [.authorizing, .verifyingSafety, .blocked]
                printed := blockedLines v.reason v.suggested_query
                executedQuery := none }
            else
              match outOracle (query_database (db sq)) with
              | .error e =>
                { trace := [.authorizing, .verifyingSafety, .executing, .errored]
                  printed := errLines e, executedQuery := some sq }
              | .ok otext =>
                { trace := [.authorizing, .verifyingSafety, .executing, .sanitizing, .responded]
                  printed := sqlPathRespond (parse_output_guardrail_response otext)
                  executedQuery := some sq }
      | none =>
        match agent inp with
        | .error e =>
          { trace := [.authorizing, .errored], printed := errLines e, executedQuery := none }
        | .ok rawOut =>
          match outOracle rawOut with
          | .error e =>
            { trace := [.authorizing, .agentCall, .errored]
              printed := errLines e, executedQuery := none }
          | .ok otext =>
            let o := parse_output_guardrail_response otext
            { trace := [.authorizing, .agentCall, .sanitizing, .responded]
              printed :=
                (if ¬ o.safe then ["Output Sanitized: ".data ++ o.reason] else []) ++
                  ["AI: ".data ++ agentAiContent rawOut o]
              executedQuery := none }

/-- One iteration of the main loop of tool_guardrail.py: a single combined
oracle call decides authorization and SQL safety; the approved query is
executed directly (no format call, no output guardrail). -/
def toolRun (inp : Str) (combinedOracle : Str → Except Str Str)
    (db : Str → DBOutcome) (agent : Str → Except Str Str) : RunOut :=
  match combinedOracle inp with
  | .error e => { trace := [.errored], printed := errLines e, executedQuery := none }
  | .ok ctext =>
    let g := parse_combined_response ctext
    if ¬ g.authorized then
      { trace := [.authorizing, .denied]
        printed := denialLines g.reason g.sensitive_fields
        executedQuery := none }
    else
      match g.sql_query with
      | some q =>
        if ¬ g.safe then
          { trace := [.authorizing, .verifyingSafety, .blocked]
            printed := blockedLines g.sql_reason g.suggested_query
            executedQuery := none }
        else
          { trace := [.authorizing, .verifyingSafety, .executing, .responded]
            printed := ["AI: ".data ++ query_database (db q)]
            executedQuery := some q }
      | none =>
        match agent inp with
        | .error e =>
          { trace := [.authorizing, .errored], printed := errLines e, executedQuery := none }
        | .ok out =>
          { trace := [.authorizing, .agentCall, .responded]
            printed := ["AI: ".data ++ out]
            executedQuery := none }

/-! ## Normal forms and auxiliary predicates used by the theorems. -/

/-- A string contains no ASCII uppercase letter. -/
def noUpper (s : Str) : Prop := ∀ c ∈ s, isUpperChar c = false

instance (s : Str) : Decidable (noUpper s) := List.decidableBAll _ s

/-- A string already in the normal form the line parser produces:
lowercase, colon-free, single-line, and without leading or trailing
whitespace (the default characters make the edge conditions vacuous for
the empty string). -/
def goodFree (s : Str) : Prop :=
  pyLower s = s ∧ '\n' ∉ s ∧ ':' ∉ s ∧
    isSpaceChar (s.headD 'x') = false ∧ isSpaceChar (s.getLastD 'x') = false

instance (s : Str) : Decidable (goodFree s) := by unfold goodFree; infer_instance

/-- Normal form for one element of the sensitive_fields set: additionally
non-empty and free of the list punctuation. -/
def goodField (f : Str) : Prop :=
  goodFree f ∧ f ≠ [] ∧ ',' ∉ f ∧ '[' ∉ f ∧ ']' ∉ f

instance (f : Str) : Decidable (goodField f) := by unfold goodField; infer_instance

/-- The whitespace-delimited words of a string (the claim-side notion of a
token used to compare against the substring test of the implementation). -/
def tokensOf (s : Str) : List Str :=
  (splitOnChar ' ' s).filter (fun w => w ≠ [])

/-- Modelled from the spec: re-serialization of an AuthorizationVerdict
for the round-trip property, one key colon value line per field in schema
order, the set field as a bracketed comma-separated list and the absent
query as the literal null.  (The repository has no serializer; this
definition follows the claim text.) -/
def serializeQuery : Option Str → Str
  | some q => q
  | none => "null".data

def serializeAuth (v : AuthVerdict) : Str :=
  joinSep "\n".data
    [ "authorized: ".data ++ (if v.authorized then "true".data else "false".data)
    , "reason: ".data ++ v.reason
    , "sensitive_fields: [".data ++ joinSep ",".data v.sensitive_fields ++ "]".data
    , "sql_query: ".data ++ serializeQuery v.sql_query ]

/-! ## Character-level lemmas. -/

theorem char_eq_iff {c d : Char} : c = d ↔ c.toNat = d.toNat :=
  ⟨fun h => h ▸ rfl, fun h => Char.eq_of_val_eq (UInt32.ext_iff.mpr h)⟩

theorem charOfNat_toNat {n : Nat} (h1 : 97 ≤ n) (h2 : n ≤ 122) :
    (Char.ofNat n).toNat = n := by
  have hv : n.isValidChar := Or.inl (by omega)
  simp [Char.ofNat, hv, Char.ofNatAux, Char.toNat]
  simp [UInt32.toNat, UInt32.ofNat', BitVec.toNat_ofNatLt]

theorem toNat_pyCharLower (c : Char) :
    (pyCharLower c).toNat =
      if 65 ≤ c.toNat ∧ c.toNat ≤ 90 then c.toNat + 32 else c.toNat := by
  unfold pyCharLower
  split
  · next h => exact charOfNat_toNat (by omega) (by omega)
  · next h => rfl

theorem pyCharLower_not_upper (c : Char) : isUpperChar (pyCharLower c) = false := by
  simp only [isUpperChar, toNat_pyCharLower]
  split <;> (simp only [decide_eq_false_iff_not]; omega)

theorem pyCharLower_fixed {c : Char} (h : isUpperChar c = false) :
    pyCharLower c = c := by
  simp only [isUpperChar, decide_eq_false_iff_not] at h
  unfold pyCharLower
  rw [if_neg h]

theorem pyCharLower_eq_low {c d : Char} (hd : d.toNat < 65) :
    pyCharLower c = d ↔ c = d := by
  rw [char_eq_iff, char_eq_iff, toNat_pyCharLower]
  split
  · constructor <;> (intro h; omega)
  · exact Iff.rfl

theorem isSpaceChar_pyCharLower (c : Char) :
    isSpaceChar (pyCharLower c) = isSpaceChar c := by
  simp only [isSpaceChar, toNat_pyCharLower]
  split
  · next h => rw [decide_eq_decide]; constructor <;> (intro; omega)
  · rfl

theorem pyCharLower_idem (c : Char) : pyCharLower (pyCharLower c) = pyCharLower c :=
  pyCharLower_fixed (pyCharLower_not_upper c)

/-! ## Lemmas about the string primitives. -/

theorem isPre_iff_append {p s : Str} : isPre p s = true ↔ ∃ r, s = p ++ r := by
  induction p generalizing s with
  | nil => simp [isPre]
  | cons a p ih =>
    cases s with
    | nil => simp [isPre]
    | cons c t =>
      simp only [isPre, Bool.and_eq_true, beq_iff_eq, ih]
      constructor
      · rintro ⟨rfl, r, rfl⟩
        exact ⟨r, rfl⟩
      · rintro ⟨r, hr⟩
        injection hr with h1 h2
        exact ⟨h1.symm, r, h2⟩

theorem isPre_append_self (p r : Str) : isPre p (p ++ r) = true :=
  isPre_iff_append.mpr ⟨r, rfl⟩

theorem isPre_mem {p s : Str} (h : isPre p s = true) : ∀ a ∈ p, a ∈ s := by
  obtain ⟨r, rfl⟩ := isPre_iff_append.mp h
  intro a ha
  exact List.mem_append_left r ha

theorem removeAllGo_skip (pat : Str) (l rest : Str) :
    removeAllGo pat l.length (l ++ rest) = removeAllGo pat 0 rest := by
  induction l with
  | nil => rfl
  | cons a t ih => simpa [removeAllGo] using ih

theorem removeAll_append_self {a : Char} {p : Str} (rest : Str) :
    removeAll (a :: p) ((a :: p) ++ rest) = removeAll (a :: p) rest := by
  show removeAllGo (a :: p) 0 (a :: (p ++ rest)) = removeAllGo (a :: p) 0 rest
  have heq : removeAllGo (a :: p) 0 (a :: (p ++ rest)) =
      if isPre (a :: p) (a :: (p ++ rest)) then
        removeAllGo (a :: p) ((a :: p).length - 1) (p ++ rest)
      else a :: removeAllGo (a :: p) 0 (p ++ rest) := rfl
  rw [heq, if_pos (show isPre (a :: p) (a :: (p ++ rest)) = true from
    isPre_append_self (a :: p) rest)]
  simpa using removeAllGo_skip (a :: p) p rest

theorem removeAll_not_mem {pat s : Str} {a : Char} (hap : a ∈ pat) (has : a ∉ s) :
    removeAll pat s = s := by
  unfold removeAll
  induction s with
  | nil => rfl
  | cons c t ih =>
    have hnp : ¬ isPre pat (c :: t) = true := fun hp => has (isPre_mem hp a hap)
    have heq : removeAllGo pat 0 (c :: t) =
        if isPre pat (c :: t) then removeAllGo pat (pat.length - 1) t
        else c :: removeAllGo pat 0 t := rfl
    rw [heq, if_neg hnp, ih (fun h => has (List.mem_cons_of_mem c h))]

theorem mem_removeAllGo {pat : Str} :
    ∀ (s : Str) (k : Nat) (c : Char), c ∈ removeAllGo pat k s → c ∈ s := by
  intro s
  induction s with
  | nil =>
    intro k c h
    cases k <;> simp [removeAllGo] at h
  | cons a t ih =>
    intro k c h
    match k with
    | skip + 1 =>
      exact List.mem_cons_of_mem a (ih skip c h)
    | 0 =>
      have heq : removeAllGo pat 0 (a :: t) =
          if isPre pat (a :: t) then removeAllGo pat (pat.length - 1) t
          else a :: removeAllGo pat 0 t := rfl
      rw [heq] at h
      split at h
      · exact List.mem_cons_of_mem a (ih _ c h)
      · rcases List.mem_cons.mp h with rfl | h2
        · exact List.mem_cons_self c t
        · exact List.mem_cons_of_mem a (ih 0 c h2)

theorem mem_removeAll {pat s : Str} {c : Char} (h : c ∈ removeAll pat s) : c ∈ s :=
  mem_removeAllGo s 0 c h

theorem splitOnChar_not_mem {sep : Char} {s : Str} (h : sep ∉ s) :
    splitOnChar sep s = [s] := by
  induction s with
  | nil => rfl
  | cons c t ih =>
    have hcs : ¬ c = sep := fun he => h (he ▸ List.mem_cons_self c t)
    unfold splitOnChar
    rw [if_neg hcs, ih (fun hm => h (List.mem_cons_of_mem c hm))]

theorem splitOnChar_append {sep : Char} {l : Str} (h : sep ∉ l) (rest : Str) :
    splitOnChar sep (l ++ sep :: rest) = l :: splitOnChar sep rest := by
  induction l with
  | nil => simp [splitOnChar]
  | cons c t ih =>
    have hcs : ¬ c = sep := fun he => h (he ▸ List.mem_cons_self c t)
    show splitOnChar sep (c :: (t ++ sep :: rest)) = (c :: t) :: splitOnChar sep rest
    conv_lhs => unfold splitOnChar
    rw [if_neg hcs, ih (fun hm => h (List.mem_cons_of_mem c hm))]

theorem splitOnChar_joinSep {sep : Char} {lines : List Str} (hne : lines ≠ [])
    (hall : ∀ l ∈ lines, sep ∉ l) :
    splitOnChar sep (joinSep [sep] lines) = lines := by
  induction lines with
  | nil => exact absurd rfl hne
  | cons l ls ih =>
    cases ls with
    | nil =>
      show splitOnChar sep (joinSep [sep] [l]) = [l]
      exact splitOnChar_not_mem (hall l (List.mem_cons_self l []))
    | cons l2 ls2 =>
      show splitOnChar sep (l ++ [sep] ++ joinSep [sep] (l2 :: ls2)) = l :: l2 :: ls2
      rw [List.append_assoc, List.singleton_append,
        splitOnChar_append (hall l (List.mem_cons_self l _)),
        ih (by simp) (fun x hx => hall x (List.mem_cons_of_mem l hx))]

theorem mem_splitOnChar {sep : Char} :
    ∀ {s l : Str}, l ∈ splitOnChar sep s → ∀ c ∈ l, c ∈ s := by
  intro s
  induction s with
  | nil =>
    intro l hl c hc
    simp [splitOnChar] at hl
    subst hl
    simp at hc
  | cons a t ih =>
    intro l hl c hc
    unfold splitOnChar at hl
    split at hl
    · rcases List.mem_cons.mp hl with rfl | hl2
      · simp at hc
      · exact List.mem_cons_of_mem a (ih hl2 c hc)
    · rcases hsp : splitOnChar sep t with _ | ⟨h0, r⟩
      · rw [hsp] at hl
        simp at hl
        subst hl
        simp at hc
        subst hc
        exact List.mem_cons_self c t
      · rw [hsp] at hl
        rcases List.mem_cons.mp hl with rfl | hl2
        · rcases List.mem_cons.mp hc with rfl | hc2
          · exact List.mem_cons_self c t
          · exact List.mem_cons_of_mem a
              (ih (by rw [hsp]; exact List.mem_cons_self h0 r) c hc2)
        · exact List.mem_cons_of_mem a
            (ih (by rw [hsp]; exact List.mem_cons_of_mem h0 hl2) c hc)

theorem splitOnChar_map {sep : Char} {f : Char → Char} (hf : f sep = sep)
    (hf2 : ∀ c, f c = sep → c = sep) (s : Str) :
    splitOnChar sep (s.map f) = (splitOnChar sep s).map (List.map f) := by
  induction s with
  | nil => rfl
  | cons a t ih =>
    by_cases ha : a = sep
    · subst ha
      simp only [List.map_cons, hf]
      unfold splitOnChar
      rw [if_pos rfl, if_pos rfl, ih]
      rfl
    · have hfa : ¬ f a = sep := fun h => ha (hf2 a h)
      simp only [List.map_cons]
      unfold splitOnChar
      rw [if_neg hfa, if_neg ha, ih]
      rcases hsp : splitOnChar sep t with _ | ⟨h0, r⟩ <;> simp

theorem mem_joinSep {sep : Str} {xs : List Str} {c : Char} (h : c ∈ joinSep sep xs) :
    c ∈ sep ∨ ∃ x ∈ xs, c ∈ x := by
  induction xs with
  | nil => simp [joinSep] at h
  | cons x ys ih =>
    cases ys with
    | nil => exact Or.inr ⟨x, List.mem_cons_self x [], h⟩
    | cons y zs =>
      have hh : c ∈ x ++ sep ++ joinSep sep (y :: zs) := h
      simp only [List.mem_append] at hh
      rcases hh with (hx | hsep) | hj
      · exact Or.inr ⟨x, List.mem_cons_self x _, hx⟩
      · exact Or.inl hsep
      · rcases ih hj with hs | ⟨z, hz, hcz⟩
        · exact Or.inl hs
        · exact Or.inr ⟨z, List.mem_cons_of_mem x hz, hcz⟩

theorem getLastD_append {l r : Str} (hr : r ≠ []) (d : Char) :
    (l ++ r).getLastD d = r.getLastD d := by
  induction l generalizing d with
  | nil => rfl
  | cons a t ih =>
    show (a :: (t ++ r)).getLastD d = r.getLastD d
    rw [List.getLastD_cons, ih a]
    cases r with
    | nil => exact absurd rfl hr
    | cons b r2 => rw [List.getLastD_cons, List.getLastD_cons]

theorem stripRight_eq_self {s : Str} (h : isSpaceChar (s.getLastD 'x') = false) :
    stripRight s = s := by
  unfold stripRight
  cases hs : s.reverse with
  | nil =>
    rw [List.reverse_eq_nil_iff.mp hs]
    rfl
  | cons a t =>
    have hga : s.getLastD 'x' = a := by
      rw [List.getLastD_eq_getLast?, ← List.head?_reverse, hs]
      rfl
    rw [hga] at h
    have hrw : List.dropWhile isSpaceChar (a :: t) = a :: t := by
      rw [List.dropWhile_cons, h]
      simp
    calc ((a :: t).dropWhile isSpaceChar).reverse
        = (a :: t).reverse := by rw [hrw]
      _ = s.reverse.reverse := by rw [hs]
      _ = s := List.reverse_reverse s

theorem dropWhile_space_eq_self {s : Str} (h1 : isSpaceChar (s.headD 'x') = false) :
    s.dropWhile isSpaceChar = s := by
  cases s with
  | nil => rfl
  | cons a t =>
    have h1a : isSpaceChar a = false := h1
    rw [List.dropWhile_cons, h1a]
    simp

theorem pyStrip_eq_self {s : Str} (h1 : isSpaceChar (s.headD 'x') = false)
    (h2 : isSpaceChar (s.getLastD 'x') = false) : pyStrip s = s := by
  unfold pyStrip
  rw [dropWhile_space_eq_self h1]
  exact stripRight_eq_self h2

theorem pyStrip_cons_space {r : Str} (h1 : isSpaceChar (r.headD 'x') = false)
    (h2 : isSpaceChar (r.getLastD 'x') = false) : pyStrip (' ' :: r) = r := by
  unfold pyStrip
  rw [List.dropWhile_cons, show isSpaceChar ' ' = true from by decide]
  simp only [if_true]
  rw [dropWhile_space_eq_self h1]
  exact stripRight_eq_self h2

theorem mem_pyStrip {s : Str} {c : Char} (h : c ∈ pyStrip s) : c ∈ s := by
  unfold pyStrip stripRight at h
  have h1 := (List.dropWhile_sublist isSpaceChar).mem (List.mem_reverse.mp h)
  exact (List.dropWhile_sublist isSpaceChar).mem (List.mem_reverse.mp h1)

theorem mem_pyStripBrackets {s : Str} {c : Char} (h : c ∈ pyStripBrackets s) : c ∈ s := by
  unfold pyStripBrackets at h
  have h1 := (List.dropWhile_sublist _).mem (List.mem_reverse.mp h)
  exact (List.dropWhile_sublist _).mem (List.mem_reverse.mp h1)

theorem pyLower_append (a b : Str) : pyLower (a ++ b) = pyLower a ++ pyLower b :=
  List.map_append pyCharLower a b

theorem noUpper_pyLower (s : Str) : noUpper (pyLower s) := by
  intro c hc
  obtain ⟨a, _, rfl⟩ := List.mem_map.mp hc
  exact pyCharLower_not_upper a

theorem pyLower_eq_self {s : Str} (h : noUpper s) : pyLower s = s := by
  induction s with
  | nil => rfl
  | cons a t ih =>
    show pyCharLower a :: pyLower t = a :: t
    rw [pyCharLower_fixed (h a (List.mem_cons_self a t)),
      ih (fun c hc => h c (List.mem_cons_of_mem a hc))]

theorem pyLower_idem (s : Str) : pyLower (pyLower s) = pyLower s :=
  pyLower_eq_self (noUpper_pyLower s)

theorem noUpper_of_subset {s t : Str} (hsub : ∀ c ∈ t, c ∈ s) (h : noUpper s) :
    noUpper t := fun c hc => h c (hsub c hc)

/-! ## C1 — the parser never raises and fails closed. -/

/-- C1: for every input string, both cited Verdict Parsers terminate with
a normally returned record (the try-block body never raises, so nothing
escapes the parser boundary), and whenever an exception with message `e`
does occur inside the try block, the except branch produces the fully
safe-default record for the schema: every boolean false, the set field
empty, every nullable-string field null, and reason set to the
parse-failure explanation. -/
theorem C1_parser_fail_closed :
    (∀ s : Str, ∃ r, parse_guardrail_body s = Except.ok r ∧
      parse_guardrail_response s = r) ∧
    (∀ s : Str, ∃ r, parse_output_body s = Except.ok r ∧
      parse_output_guardrail_response s = r) ∧
    (∀ e : Str,
      (authParseFailure e).authorized = false ∧
      (authParseFailure e).sensitive_fields = [] ∧
      (authParseFailure e).sql_query = none ∧
      (authParseFailure e).reason = "Error parsing response: ".data ++ e) ∧
    (∀ e : Str,
      (sanParseFailure e).safe = false ∧
      (sanParseFailure e).sanitized_response = none ∧
      (sanParseFailure e).original_response = none ∧
      (sanParseFailure e).reason = "Error parsing response: ".data ++ e) :=
  ⟨fun _ => ⟨_, rfl, rfl⟩, fun _ => ⟨_, rfl, rfl⟩,
    fun _ => ⟨rfl, rfl, rfl, rfl⟩, fun _ => ⟨rfl, rfl, rfl, rfl⟩⟩

/-! ## C4 — safe = false does not force a non-null sanitized_response. -/

/-- C4 counterexample: the empty oracle text (a malformed text covered by
the claim) parses to a SanitizationVerdict with safe = false and
sanitized_response = null, so the claimed invariant fails. -/
theorem C4_counterexample :
    (parse_output_guardrail_response "".data).safe = false ∧
    (parse_output_guardrail_response "".data).sanitized_response = none := by
  decide

theorem outputStepN_keeps_some {r : SanVerdict} {line : Str}
    (h : r.sanitized_response.isSome = true) :
    (outputStepN r line).sanitized_response.isSome = true := by
  unfold outputStepN
  repeat' split
  all_goals simp_all

theorem outputStep_keeps_some {r : SanVerdict} {l : Str}
    (h : r.sanitized_response.isSome = true) :
    (outputStep r l).sanitized_response.isSome = true :=
  outputStepN_keeps_some h

theorem outputFold_keeps_some {lines : List Str} {r : SanVerdict}
    (h : r.sanitized_response.isSome = true) :
    ((lines.foldl outputStep r).sanitized_response).isSome = true := by
  induction lines generalizing r with
  | nil => exact h
  | cons l ls ih => exact ih (outputStep_keeps_some h)

/-- A raw line that the output parser accepts as a sanitized_response
assignment: after stripping and lowercasing it starts with the field
keyword and carries a non-empty remainder that is not the literal null. -/
def validSanLine (l : Str) : Prop :=
  isPre "sanitized_response:".data (pyLower (pyStrip l)) = true ∧
  pyStrip (removeAll "sanitized_response:".data (pyLower (pyStrip l))) ≠ [] ∧
  pyLower (pyStrip (removeAll "sanitized_response:".data (pyLower (pyStrip l))))
    ≠ "null".data

instance (l : Str) : Decidable (validSanLine l) := by
  unfold validSanLine; infer_instance

theorem outputStepN_sets {r : SanVerdict} {line : Str}
    (h1 : isPre "sanitized_response:".data line = true)
    (h2 : pyStrip (removeAll "sanitized_response:".data line) ≠ [])
    (h3 : pyLower (pyStrip (removeAll "sanitized_response:".data line)) ≠ "null".data) :
    (outputStepN r line).sanitized_response.isSome = true := by
  obtain ⟨rest, rfl⟩ := isPre_iff_append.mp h1
  unfold outputStepN
  rw [if_neg (by simp), if_neg (by simp [isPre]), if_neg (by simp [isPre]),
    if_pos (isPre_append_self _ _), if_pos ⟨h2, h3⟩]
  rfl

theorem outputFold_reaches_some {lines : List Str} {r : SanVerdict}
    (h : ∃ l ∈ lines, validSanLine l) :
    ((lines.foldl outputStep r).sanitized_response).isSome = true := by
  induction lines generalizing r with
  | nil => simp at h
  | cons l ls ih =>
    rcases h with ⟨l0, hl0, hv⟩
    rcases List.mem_cons.mp hl0 with rfl | hmem
    · show ((ls.foldl outputStep (outputStep r l0)).sanitized_response).isSome = true
      exact outputFold_keeps_some (outputStepN_sets hv.1 hv.2.1 hv.2.2)
    · exact ih ⟨l0, hmem, hv⟩

/-- C4 amended: the invariant holds only when the oracle text actually
contains a well-formed sanitized_response line; for every such text the
parsed verdict has a non-null sanitized_response (whatever the safe flag
is).  The parser itself does not enforce the invariant: its defaults give
safe = false with a null sanitized_response (see the counterexample). -/
theorem C4_sanitized_of_valid_line (s : Str)
    (h : ∃ l ∈ splitOnChar '\n' s, validSanLine l) :
    ((parse_output_guardrail_response s).sanitized_response).isSome = true :=
  outputFold_reaches_some h

/-- Witness: a concrete oracle text with a sanitized_response line, on
which the amended theorem applies. -/
theorem C4_sanitized_of_valid_line_witness :
    ((parse_output_guardrail_response
      "safe: false\nsanitized_response: you live in anytown".data).sanitized_response).isSome
      = true :=
  C4_sanitized_of_valid_line _ (by decide)

/-! ## C6 — the boolean test is a substring test, not a token test. -/

/-- C6 counterexample: on the line "authorized: untrue" the remainder
consists of the single word untrue — the literal token true is not among
its whitespace-delimited tokens — yet the parser sets authorized to true,
because the implementation tests substring containment on the line. -/
theorem C6_counterexample :
    (parse_guardrail_response "authorized: untrue".data).authorized = true ∧
    tokensOf (pyStrip (removeAll "authorized:".data
      (pyLower (pyStrip "authorized: untrue".data)))) = ["untrue".data] ∧
    "true".data ∉ tokensOf (pyStrip (removeAll "authorized:".data
      (pyLower (pyStrip "authorized: untrue".data)))) := by
  decide

theorem guardrailStepN_keeps_auth {r : AuthVerdict} {line : Str}
    (h : isPre "authorized:".data line = false) :
    (guardrailStepN r line).authorized = r.authorized := by
  unfold guardrailStepN
  repeat' split
  all_goals simp_all

theorem guardrailFold_keeps_auth {lines : List Str} {r : AuthVerdict}
    (h : ∀ l ∈ lines, isPre "authorized:".data (pyLower (pyStrip l)) = false) :
    ((lines.foldl guardrailStep r).authorized) = r.authorized := by
  induction lines generalizing r with
  | nil => rfl
  | cons l ls ih =>
    show ((ls.foldl guardrailStep (guardrailStep r l)).authorized) = r.authorized
    rw [ih (fun x hx => h x (List.mem_cons_of_mem l hx))]
    exact guardrailStepN_keeps_auth (h l (List.mem_cons_self l ls))

/-- C6 amended: a line matching the authorized keyword sets the boolean to
the result of the Python substring test for true on the whole lowercased
line (so any occurrence, even inside a longer word such as untrue, makes
it true), and when no line of the input matches the keyword the boolean
keeps its false default. -/
theorem C6_bool_substring :
    (∀ (r : AuthVerdict) (line : Str), isPre "authorized:".data line = true →
      (guardrailStepN r line).authorized = containsSub "true".data line) ∧
    (∀ s : Str, (∀ l ∈ splitOnChar '\n' s,
        isPre "authorized:".data (pyLower (pyStrip l)) = false) →
      (parse_guardrail_response s).authorized = false) := by
  constructor
  · intro r line h
    obtain ⟨rest, rfl⟩ := isPre_iff_append.mp h
    unfold guardrailStepN
    rw [if_neg (by simp), if_pos (isPre_append_self _ _)]
  · intro s h
    exact guardrailFold_keeps_auth h

/-- Witness: the substring rule evaluated on a concrete matching line, and
the default on a concrete input with no authorized line. -/
theorem C6_bool_substring_witness :
    (guardrailStepN guardrailDefault "authorized: true".data).authorized
      = containsSub "true".data "authorized: true".data ∧
    (parse_guardrail_response "hello".data).authorized = false :=
  ⟨C6_bool_substring.1 _ _ (by decide), C6_bool_substring.2 _ (by decide)⟩

/-! ## C7 — malformed text defaults, but keyword case is normalized. -/

/-- C7 counterexample: the claim includes wrong-case keywords among the
malformed inputs that must yield an all-false verdict, but the parser
lowercases each line before matching, so "AUTHORIZED: TRUE" parses with
authorized = true. -/
theorem C7_counterexample :
    (parse_guardrail_response "AUTHORIZED: TRUE".data).authorized = true := by
  decide

/-- A raw line the authorization parser ignores: blank after
normalization, or matching none of the four field keywords. -/
def unrecognizedAuthLine (l : Str) : Prop :=
  pyLower (pyStrip l) = [] ∨
  (isPre "authorized:".data (pyLower (pyStrip l)) = false ∧
   isPre "reason:".data (pyLower (pyStrip l)) = false ∧
   isPre "sensitive_fields:".data (pyLower (pyStrip l)) = false ∧
   isPre "sql_query:".data (pyLower (pyStrip l)) = false)

instance (l : Str) : Decidable (unrecognizedAuthLine l) := by
  unfold unrecognizedAuthLine; infer_instance

theorem guardrailStepN_id {r : AuthVerdict} {line : Str}
    (h : line = [] ∨
      (isPre "authorized:".data line = false ∧ isPre "reason:".data line = false ∧
       isPre "sensitive_fields:".data line = false ∧
       isPre "sql_query:".data line = false)) :
    guardrailStepN r line = r := by
  unfold guardrailStepN
  rcases h with h | ⟨h1, h2, h3, h4⟩
  · rw [if_pos h]
  · by_cases he : line = []
    · rw [if_pos he]
    · rw [if_neg he, if_neg (by simp [h1]), if_neg (by simp [h2]),
        if_neg (by simp [h3]), if_neg (by simp [h4])]

theorem dropWhile_space_pyLower (s : Str) :
    (pyLower s).dropWhile isSpaceChar = pyLower (s.dropWhile isSpaceChar) := by
  unfold pyLower
  rw [List.dropWhile_map,
    show (isSpaceChar ∘ pyCharLower) = isSpaceChar from funext isSpaceChar_pyCharLower]

theorem stripRight_pyLower (s : Str) :
    stripRight (pyLower s) = pyLower (stripRight s) := by
  unfold stripRight pyLower
  rw [← List.map_reverse, List.dropWhile_map,
    show (isSpaceChar ∘ pyCharLower) = isSpaceChar from funext isSpaceChar_pyCharLower,
    ← List.map_reverse]

theorem pyStrip_pyLower (s : Str) : pyStrip (pyLower s) = pyLower (pyStrip s) := by
  unfold pyStrip
  rw [dropWhile_space_pyLower, stripRight_pyLower]

theorem guardrailStep_pyLower (r : AuthVerdict) (l : Str) :
    guardrailStep r (pyLower l) = guardrailStep r l := by
  unfold guardrailStep
  rw [pyStrip_pyLower, pyLower_idem]

/-- C7 amended: the empty string and every text all of whose lines are
unrecognized (missing fields, extra lines) parse to the safe-default
verdict with every boolean false and every optional field empty; but
wrong-case keywords are not among the malformed inputs — the parser
normalizes case, so lowercasing the input never changes the result. -/
theorem C7_malformed_defaults :
    parse_guardrail_response "".data = guardrailDefault ∧
    (∀ s : Str, (∀ l ∈ splitOnChar '\n' s, unrecognizedAuthLine l) →
      parse_guardrail_response s = guardrailDefault) ∧
    (∀ s : Str, parse_guardrail_response (pyLower s) = parse_guardrail_response s) := by
  refine ⟨by decide, ?_, ?_⟩
  · intro s h
    show (splitOnChar '\n' s).foldl guardrailStep guardrailDefault = guardrailDefault
    generalize splitOnChar '\n' s = lines at h ⊢
    revert h
    induction lines with
    | nil => intro _; rfl
    | cons l ls ih =>
      intro h
      show ls.foldl guardrailStep (guardrailStep guardrailDefault l) = guardrailDefault
      have hstep : guardrailStep guardrailDefault l = guardrailDefault :=
        guardrailStepN_id (h l (List.mem_cons_self l ls))
      rw [hstep]
      exact ih (fun x hx => h x (List.mem_cons_of_mem l hx))
  · intro s
    show (splitOnChar '\n' (pyLower s)).foldl guardrailStep guardrailDefault
        = (splitOnChar '\n' s).foldl guardrailStep guardrailDefault
    rw [show splitOnChar '\n' (pyLower s) = (splitOnChar '\n' s).map pyLower from
      splitOnChar_map (by decide) (fun c hc => (pyCharLower_eq_low (by decide)).mp hc) s]
    rw [List.foldl_map]
    congr 1
    funext r l
    exact guardrailStep_pyLower r l

/-- Witness: the amended theorem applied at a concrete input whose lines
are all unrecognized. -/
theorem C7_malformed_defaults_witness :
    parse_guardrail_response "hello\nworld [x]".data = guardrailDefault :=
  C7_malformed_defaults.2.1 _ (by decide)

/-! ## C8 — result formatting of the Execution Boundary. -/

/-- C8 counterexample: a null value renders as "No data available" in the
single-column case but as "N/A" inside a multi-column row, so there is no
one fixed placeholder token for absent values. -/
theorem C8_counterexample :
    query_database_fmt 1 [[none]] = "No data available".data ∧
    query_database_fmt 2 [[none, none]] = "N/A | N/A".data ∧
    "No data available".data ≠ "N/A".data := by
  decide

/-- C8 amended: empty result sets render as the fixed no-results message;
a single-column result returns the first value bare, with the placeholder
"No data available" when that value is null; a multi-column result is
rendered as newline-separated rows joined by " | " with nulls rendered as
"N/A" — two distinct null placeholders, not one. -/
theorem C8_formatting :
    (∀ ncols : Nat, query_database_fmt ncols [] = "No results found.".data) ∧
    (∀ (v : Str) (row : List (Option Str)) (rest : List (List (Option Str))),
      query_database_fmt 1 ((some v :: row) :: rest) = v) ∧
    (∀ (row : List (Option Str)) (rest : List (List (Option Str))),
      query_database_fmt 1 ((none :: row) :: rest) = "No data available".data) ∧
    (∀ (ncols : Nat) (rows : List (List (Option Str))), ncols ≠ 1 → rows ≠ [] →
      query_database_fmt ncols rows =
        joinSep "\n".data (rows.map (fun row =>
          joinSep " | ".data (row.map (fun v => v.getD "N/A".data))))) := by
  refine ⟨fun ncols => rfl, fun v row rest => rfl, fun row rest => rfl, ?_⟩
  intro ncols rows h1 h2
  unfold query_database_fmt
  rw [if_neg h2, if_neg h1]

/-- Witness: the multi-column clause of the amended theorem applied at a
concrete two-column result with a null cell. -/
theorem C8_formatting_witness :
    query_database_fmt 3 [[some "a".data, none, some "b".data]]
      = "a | N/A | b".data :=
  (C8_formatting.2.2.2 3 [[some "a".data, none, some "b".data]]
    (by decide) (by decide)).trans (by decide)

/-! ## Trace shapes of the three loop bodies. -/

theorem outputRun_trace_cases (uid : Nat) (inp : Str)
    (aO vO : Str → Except Str Str) (db : Str → DBOutcome)
    (oO ag : Str → Except Str Str) :
    (outputRun uid inp aO vO db oO ag).trace ∈ ([
      [Stage.errored],
      [Stage.authorizing, Stage.denied],
      [Stage.authorizing, Stage.errored],
      [Stage.authorizing, Stage.verifyingSafety, Stage.errored],
      [Stage.authorizing, Stage.verifyingSafety, Stage.blocked],
      [Stage.authorizing, Stage.verifyingSafety, Stage.executing, Stage.errored],
      [Stage.authorizing, Stage.verifyingSafety, Stage.executing, Stage.sanitizing,
        Stage.responded],
      [Stage.authorizing, Stage.agentCall, Stage.errored],
      [Stage.authorizing, Stage.agentCall, Stage.sanitizing, Stage.responded]] :
      List (List Stage)) := by
  rcases haO : aO inp with e | atext <;> simp only [outputRun, haO]
  · simp
  · split
    · simp
    · rcases hsq : (parse_guardrail_response atext).sql_query with _ | q <;>
        simp only [hsq]
      · rcases hag : ag inp with e | rawOut <;> simp only [hag]
        · simp
        · rcases hoO : oO rawOut with e | otext <;> simp only [hoO] <;> simp
      · rcases hf : pyFormatCU uid q with e | sq <;> simp only [hf]
        · simp
        · rcases hv : vO sq with e | vtext <;> simp only [hv]
          · simp
          · split
            · simp
            · rcases hoO : oO (query_database (db sq)) with e | otext <;>
                simp only [hoO] <;> simp

theorem inputRun_trace_cases (uid : Nat) (inp : Str)
    (aO : Str → Except Str Str) (db : Str → DBOutcome) (ag : Str → Except Str Str) :
    (inputRun uid inp aO db ag).trace ∈ ([
      [Stage.errored],
      [Stage.authorizing, Stage.denied],
      [Stage.authorizing, Stage.errored],
      [Stage.authorizing, Stage.executing, Stage.responded],
      [Stage.authorizing, Stage.agentCall, Stage.responded]] : List (List Stage)) := by
  rcases haO : aO inp with e | atext <;> simp only [inputRun, haO]
  · simp
  · split
    · simp
    · rcases hsq : (parse_guardrail_response atext).sql_query with _ | q <;>
        simp only [hsq]
      · rcases hag : ag inp with e | rawOut <;> simp only [hag] <;> simp
      · rcases hf : pyFormatCU uid q with e | sq <;> simp only [hf] <;> simp

theorem toolRun_trace_cases (inp : Str) (cO : Str → Except Str Str)
    (db : Str → DBOutcome) (ag : Str → Except Str Str) :
    (toolRun inp cO db ag).trace ∈ ([
      [Stage.errored],
      [Stage.authorizing, Stage.denied],
      [Stage.authorizing, Stage.verifyingSafety, Stage.blocked],
      [Stage.authorizing, Stage.verifyingSafety, Stage.executing, Stage.responded],
      [Stage.authorizing, Stage.agentCall, Stage.responded],
      [Stage.authorizing, Stage.errored]] : List (List Stage)) := by
  rcases hcO : cO inp with e | ctext <;> simp only [toolRun, hcO]
  · simp
  · split
    · simp
    · rcases hsq : (parse_combined_response ctext).sql_query with _ | q <;>
        simp only [hsq]
      · rcases hag : ag inp with e | rawOut <;> simp only [hag] <;> simp
      · split <;> simp

/-! ## C2 — sanitization between execution and response. -/

/-- A run of the input-guarded variant at concrete collaborator behaviour:
the oracle authorizes with a query, the store returns a row. -/
def c2run : RunOut :=
  inputRun 1 "what is my address".data
    (fun _ => Except.ok
      "authorized: true\nsql_query: select address from users where id = 1".data)
    (fun _ => DBOutcome.rows 1 [[some "9 elm st".data]])
    (fun _ => Except.ok "".data)

/-- C2 counterexample: in the input-guarded pipeline variant the executed
result reaches the response with no sanitizing stage at all, so the claim
fails for that variant. -/
theorem C2_counterexample :
    Stage.executing ∈ c2run.trace ∧ Stage.responded ∈ c2run.trace ∧
    Stage.sanitizing ∉ c2run.trace := by
  decide

/-- C2 amended: only the output-guarded variant interposes sanitization —
there, whenever execution occurs and a response is emitted, the trace is
exactly authorizing, verifyingSafety, executing, sanitizing, responded;
the input-guarded and combined variants have no sanitizing stage on any
path. -/
theorem C2_sanitize_stage :
    (∀ (uid : Nat) (inp : Str) (aO vO : Str → Except Str Str)
      (db : Str → DBOutcome) (oO ag : Str → Except Str Str),
      Stage.executing ∈ (outputRun uid inp aO vO db oO ag).trace →
      Stage.responded ∈ (outputRun uid inp aO vO db oO ag).trace →
      (outputRun uid inp aO vO db oO ag).trace
        = [Stage.authorizing, Stage.verifyingSafety, Stage.executing,
           Stage.sanitizing, Stage.responded]) ∧
    (∀ (uid : Nat) (inp : Str) (aO : Str → Except Str Str)
      (db : Str → DBOutcome) (ag : Str → Except Str Str),
      Stage.sanitizing ∉ (inputRun uid inp aO db ag).trace) ∧
    (∀ (inp : Str) (cO : Str → Except Str Str) (db : Str → DBOutcome)
      (ag : Str → Except Str Str),
      Stage.sanitizing ∉ (toolRun inp cO db ag).trace) := by
  refine ⟨?_, ?_, ?_⟩
  · intro uid inp aO vO db oO ag h1 h2
    have hc := outputRun_trace_cases uid inp aO vO db oO ag
    simp only [List.mem_cons, List.not_mem_nil, or_false] at hc
    rcases hc with h|h|h|h|h|h|h|h|h <;> rw [h] at h1 h2 ⊢ <;>
      first
        | rfl
        | (exfalso; revert h1 h2; decide)
  · intro uid inp aO db ag
    have hc := inputRun_trace_cases uid inp aO db ag
    simp only [List.mem_cons, List.not_mem_nil, or_false] at hc
    rcases hc with h|h|h|h|h <;> rw [h] <;> decide
  · intro inp cO db ag
    have hc := toolRun_trace_cases inp cO db ag
    simp only [List.mem_cons, List.not_mem_nil, or_false] at hc
    rcases hc with h|h|h|h|h|h <;> rw [h] <;> decide

/-- Witness: the output-variant clause applied to a concrete fully
successful run. -/
theorem C2_sanitize_stage_witness :
    (outputRun 1 "what is my address".data
      (fun _ => Except.ok "authorized: true\nsql_query: select 1".data)
      (fun _ => Except.ok "safe: true".data)
      (fun _ => DBOutcome.rows 1 [[some "x".data]])
      (fun _ => Except.ok "safe: true\nsanitized_response: x".data)
      (fun _ => Except.ok "".data)).trace
      = [Stage.authorizing, Stage.verifyingSafety, Stage.executing,
         Stage.sanitizing, Stage.responded] :=
  C2_sanitize_stage.1 1 "what is my address".data _ _ _ _ _
    (by decide) (by decide)

/-! ## C3 — store errors are returned as answer text, not ERRORED. -/

/-- A run of the output-guarded variant in which the record store raises
sqlite3.Error and the sanitization oracle echoes the resulting text. -/
def c3run : RunOut :=
  outputRun 1 "what is my ssn".data
    (fun _ => Except.ok
      "authorized: true\nsql_query: select ssn from users where id = 1".data)
    (fun _ => Except.ok "safe: true".data)
    (fun _ => DBOutcome.sqliteError "no such table: users".data)
    (fun _ => Except.ok
      "safe: true\nsanitized_response: database error: no such table: users".data)
    (fun _ => Except.ok "".data)

/-- C3 counterexample: with the store call raising sqlite3.Error the
pipeline does not abort to an errored state — it responds, and the
database error text is emitted to the requester as the answer. -/
theorem C3_counterexample :
    Stage.errored ∉ c3run.trace ∧ Stage.responded ∈ c3run.trace ∧
    c3run.printed = ["AI: database error: no such table: users".data] := by
  decide

/-- C3 amended: only an exception that escapes a collaborator call (for
example the oracle call raising) aborts the loop to the errored branch
with the retry message and no other output; a record-store error raised
inside query_database is caught there and returned as the text "Database
error: ...", which flows on as an ordinary result — in the input-guarded
variant it is printed verbatim as the AI answer. -/
theorem C3_collaborator_errors :
    (∀ (uid : Nat) (inp : Str) (vO : Str → Except Str Str)
      (db : Str → DBOutcome) (oO ag : Str → Except Str Str) (e : Str),
      outputRun uid inp (fun _ => Except.error e) vO db oO ag
        = { trace := [Stage.errored], printed := errLines e, executedQuery := none }) ∧
    (∀ e : Str, query_database (DBOutcome.sqliteError e) = "Database error: ".data ++ e) ∧
    (∀ (uid : Nat) (inp : Str) (aO : Str → Except Str Str) (db : Str → DBOutcome)
      (ag : Str → Except Str Str) (atext q sq e : Str),
      aO inp = Except.ok atext →
      (parse_guardrail_response atext).authorized = true →
      (parse_guardrail_response atext).sql_query = some q →
      pyFormatCU uid q = Except.ok sq →
      db sq = DBOutcome.sqliteError e →
      (inputRun uid inp aO db ag).printed
        = ["AI: Database error: ".data ++ e]) := by
  refine ⟨fun uid inp vO db oO ag e => rfl, fun e => rfl, ?_⟩
  intro uid inp aO db ag atext q sq e ha hauth hsq hfmt hdb
  simp only [inputRun, ha, hauth, hsq, hfmt, hdb]
  simp only [query_database]
  rw [show ("AI: ".data : Str) ++ ("Database error: ".data ++ e)
      = "AI: Database error: ".data ++ e from by
    rw [← List.append_assoc]; rfl]
  simp

/-- Witness: the store-error clause applied at concrete collaborator
behaviour. -/
theorem C3_collaborator_errors_witness :
    (inputRun 1 "x".data
      (fun _ => Except.ok "authorized: true\nsql_query: select 1".data)
      (fun _ => DBOutcome.sqliteError "locked".data)
      (fun _ => Except.ok "".data)).printed
      = ["AI: Database error: locked".data] := by
  have := C3_collaborator_errors.2.2 1 "x".data
    (fun _ => Except.ok "authorized: true\nsql_query: select 1".data)
    (fun _ => DBOutcome.sqliteError "locked".data)
    (fun _ => Except.ok "".data)
    "authorized: true\nsql_query: select 1".data
    "select 1".data "select 1".data "locked".data
    rfl (by decide) (by decide) rfl rfl
  exact this.trans (by decide)

/-! ## C5 — safe = true does not release the original executed text. -/

/-- A fully successful run of the output-guarded variant in which the
sanitization oracle judges the executed text safe and echoes it back
verbatim. -/
def c5run : RunOut :=
  outputRun 1 "what is my name".data
    (fun _ => Except.ok
      "authorized: true\nsql_query: select first_name from users where id = 1".data)
    (fun _ => Except.ok "safe: true".data)
    (fun _ => DBOutcome.rows 1 [[some "John".data]])
    (fun _ => Except.ok "safe: true\nsanitized_response: John".data)
    (fun _ => Except.ok "".data)

/-- C5 counterexample: the executed text is "John" and the sanitization
verdict has safe = true, yet the line released to the requester is
"AI: john" — the parsed (lowercased) sanitized_response field — not the
unmodified original executed text. -/
theorem C5_counterexample :
    (parse_output_guardrail_response
      "safe: true\nsanitized_response: John".data).safe = true ∧
    query_database (DBOutcome.rows 1 [[some "John".data]]) = "John".data ∧
    c5run.printed = ["AI: john".data] ∧
    "AI: john".data ≠ "AI: ".data ++ "John".data := by
  decide

/-- C5 amended: on the SQL path of the output-guarded variant the released
line is always built from the parsed sanitized_response field, whatever the
safe flag says; only on the agent fallback path does safe = true release
the raw text unchanged. -/
theorem C5_released_text :
    (∀ o : SanVerdict, o.safe = true →
      sqlPathRespond o = ["AI: ".data ++ renderOpt o.sanitized_response]) ∧
    (∀ (rawOut : Str) (o : SanVerdict), o.safe = true →
      agentAiContent rawOut o = rawOut) := by
  constructor
  · intro o h
    unfold sqlPathRespond
    rw [h]
    simp
  · intro rawOut o h
    unfold agentAiContent
    rw [h]
    simp

/-- Witness: both clauses applied at concrete safe verdicts. -/
theorem C5_released_text_witness :
    sqlPathRespond
      { safe := true, reason := [], sanitized_response := some "john doe".data,
        original_response := none } = ["AI: john doe".data] ∧
    agentAiContent "raw".data
      { safe := true, reason := [], sanitized_response := none,
        original_response := none } = "raw".data :=
  ⟨(C5_released_text.1 _ rfl).trans (by decide), C5_released_text.2 _ _ rfl⟩

/-! ## C9 — round trip of serialization and re-parsing. -/

/-- C9 counterexample: a verdict whose reason field contains uppercase
letters does not survive the round trip, because the parser lowercases
every line before matching and extracting values. -/
theorem C9_counterexample :
    parse_guardrail_response (serializeAuth
      { authorized := true, reason := "User REQUESTED own data".data,
        sensitive_fields := [], sql_query := none })
      ≠ { authorized := true, reason := "User REQUESTED own data".data,
          sensitive_fields := [], sql_query := none } := by
  decide

theorem pyLower_fixed_mem {s : Str} (h : pyLower s = s) :
    ∀ c ∈ s, pyCharLower c = c := by
  induction s with
  | nil => intro c hc; exact absurd hc (List.not_mem_nil c)
  | cons a t ih =>
    simp only [pyLower, List.map_cons, List.cons.injEq] at h
    intro c hc
    rcases List.mem_cons.mp hc with rfl | hmem
    · exact h.1
    · exact ih h.2 c hmem

theorem noUpper_of_pyLower_fixed {s : Str} (h : pyLower s = s) : noUpper s := by
  intro c hc
  have hfix := pyLower_fixed_mem h c hc
  by_contra hup
  simp only [Bool.not_eq_false, isUpperChar, decide_eq_true_eq] at hup
  have ht := toNat_pyCharLower c
  rw [if_pos hup, hfix] at ht
  omega

theorem dropWhile_eq_self_of_head {p : Char → Bool} {s : Str}
    (h : ∀ hd, s.head? = some hd → p hd = false) : s.dropWhile p = s := by
  cases s with
  | nil => rfl
  | cons a t =>
    rw [List.dropWhile_cons, h a rfl]
    simp

theorem joinSep_cons_ne_nil {sep x : Str} (hx : x ≠ []) (xs : List Str) :
    joinSep sep (x :: xs) ≠ [] := by
  cases xs with
  | nil => exact hx
  | cons y ys =>
    show x ++ sep ++ joinSep sep (y :: ys) ≠ []
    simp [hx]

theorem map_pyStrip_id {fs : List Str} (h : ∀ f ∈ fs, pyStrip f = f) :
    fs.map pyStrip = fs := by
  induction fs with
  | nil => rfl
  | cons f t ih =>
    rw [List.map_cons, h f (List.mem_cons_self f t),
      ih (fun x hx => h x (List.mem_cons_of_mem f hx))]

theorem pyStripBrackets_wrap {J : Str} (hne : J ≠ []) (h1 : '[' ∉ J) (h2 : ']' ∉ J) :
    pyStripBrackets ('[' :: (J ++ [']'])) = J := by
  obtain ⟨a, t, rfl⟩ : ∃ a t, J = a :: t := by
    cases J with
    | nil => exact absurd rfl hne
    | cons a t => exact ⟨a, t, rfl⟩
  have hJb : ∀ c ∈ a :: t, (c == '[' || c == ']') = false := by
    intro c hc
    have hc1 : c ≠ '[' := fun he => h1 (he ▸ hc)
    have hc2 : c ≠ ']' := fun he => h2 (he ▸ hc)
    simp [hc1, hc2]
  unfold pyStripBrackets
  simp only []
  rw [List.dropWhile_cons]
  rw [show (('[' == '[' || '[' == ']') = true) from rfl]
  simp only [if_true]
  rw [show ((a :: t) ++ [']'] : Str) = a :: (t ++ [']']) from rfl,
    List.dropWhile_cons, hJb a (List.mem_cons_self a t)]
  simp only [Bool.false_eq_true, if_false]
  rw [show (a :: (t ++ [']'])).reverse = ']' :: (t.reverse ++ [a]) from by
    simp]
  rw [List.dropWhile_cons, show ((']' == '[' || ']' == ']') = true) from rfl]
  simp only [if_true]
  rw [dropWhile_eq_self_of_head (fun hd hhd => by
    have hmem : hd ∈ a :: t := by
      have := List.mem_of_mem_head? hhd
      rcases List.mem_append.mp this with hm | hm
      · exact List.mem_cons_of_mem a (List.mem_reverse.mp hm)
      · have hm2 := List.mem_singleton.mp hm
        rw [hm2]
        exact List.mem_cons_self _ _
    exact hJb hd hmem)]
  simp

/-- Normal form for the optional query field: absent, or a normal-form
non-empty string that is not the literal null. -/
def goodQuery : Option Str → Prop
  | none => True
  | some q => goodFree q ∧ q ≠ [] ∧ q ≠ "null".data

instance (o : Option Str) : Decidable (goodQuery o) := by
  cases o <;> (unfold goodQuery; infer_instance)

theorem step_auth_line (r : AuthVerdict) (b : Bool) :
    guardrailStep r
      ("authorized: ".data ++ (if b then "true".data else "false".data))
      = { r with authorized := b } := by
  cases b <;> rfl

theorem step_reason_line (r : AuthVerdict) {rr : Str} (h : goodFree rr) :
    guardrailStep r ("reason: ".data ++ rr) = { r with reason := rr } := by
  obtain ⟨hlow, hnl, hcol, hhead, hlast⟩ := h
  cases rr with
  | nil => rfl
  | cons c t =>
    have hne : (c :: t : Str) ≠ [] := by simp
    have hstrip : pyStrip ("reason: ".data ++ (c :: t)) = "reason: ".data ++ (c :: t) :=
      pyStrip_eq_self (by show isSpaceChar 'r' = false; decide)
        (by rw [getLastD_append hne]; exact hlast)
    have hlow2 : pyLower ("reason: ".data ++ (c :: t)) = "reason: ".data ++ (c :: t) := by
      rw [pyLower_append, hlow,
        show pyLower "reason: ".data = "reason: ".data from by decide]
    show guardrailStepN r (pyLower (pyStrip ("reason: ".data ++ (c :: t)))) = _
    rw [hstrip, hlow2]
    unfold guardrailStepN
    rw [if_neg (by simp), if_neg (by simp [isPre]),
      if_pos (show isPre "reason:".data ("reason: ".data ++ (c :: t)) = true from
        isPre_iff_append.mpr ⟨' ' :: (c :: t), rfl⟩)]
    have hrm : removeAll "reason:".data ("reason: ".data ++ (c :: t))
        = ' ' :: (c :: t) := by
      rw [show ("reason: ".data ++ (c :: t) : Str)
          = "reason:".data ++ (' ' :: (c :: t)) from rfl]
      rw [show ("reason:".data : Str) = 'r' :: "eason:".data from rfl,
        removeAll_append_self]
      apply removeAll_not_mem (a := ':') (by decide)
      intro hmem
      rcases List.mem_cons.mp hmem with hsp | hmem2
      · exact absurd hsp (by decide)
      · exact hcol hmem2
    rw [hrm, pyStrip_cons_space hhead hlast]

theorem step_fields_line (r : AuthVerdict) {f0 : Str} {fs' : List Str}
    (h : ∀ f ∈ f0 :: fs', goodField f) :
    guardrailStep r
      ("sensitive_fields: [".data ++ joinSep ",".data (f0 :: fs') ++ "]".data)
      = { r with sensitive_fields := f0 :: fs' } := by
  have hJchars : ∀ c ∈ joinSep ",".data (f0 :: fs'),
      c = ',' ∨ ∃ f ∈ f0 :: fs', c ∈ f := by
    intro c hc
    rcases mem_joinSep hc with hsep | hfm
    · left
      rcases List.mem_singleton.mp hsep with rfl
      rfl
    · right
      exact hfm
  have hJnb1 : '[' ∉ joinSep ",".data (f0 :: fs') := by
    intro hmem
    rcases hJchars '[' hmem with h1 | ⟨f, hfm, hcf⟩
    · exact absurd h1 (by decide)
    · exact (h f hfm).2.2.2.1 hcf
  have hJnb2 : ']' ∉ joinSep ",".data (f0 :: fs') := by
    intro hmem
    rcases hJchars ']' hmem with h1 | ⟨f, hfm, hcf⟩
    · exact absurd h1 (by decide)
    · exact (h f hfm).2.2.2.2 hcf
  have hJcol : ':' ∉ joinSep ",".data (f0 :: fs') := by
    intro hmem
    rcases hJchars ':' hmem with h1 | ⟨f, hfm, hcf⟩
    · exact absurd h1 (by decide)
    · exact (h f hfm).1.2.2.1 hcf
  have hJne : joinSep ",".data (f0 :: fs') ≠ [] :=
    joinSep_cons_ne_nil (h f0 (List.mem_cons_self f0 fs')).2.1 fs'
  have hJlow : pyLower (joinSep ",".data (f0 :: fs')) = joinSep ",".data (f0 :: fs') :=
    pyLower_eq_self (fun c hc => by
      rcases hJchars c hc with rfl | ⟨f, hfm, hcf⟩
      · decide
      · exact noUpper_of_pyLower_fixed (h f hfm).1.1 c hcf)
  have hBne : ("]".data : Str) ≠ [] := by decide
  have hstrip : pyStrip ("sensitive_fields: [".data ++ joinSep ",".data (f0 :: fs')
      ++ "]".data) = "sensitive_fields: [".data ++ joinSep ",".data (f0 :: fs')
      ++ "]".data :=
    pyStrip_eq_self (by show isSpaceChar 's' = false; decide)
      (by rw [getLastD_append hBne]; decide)
  have hlowL : pyLower ("sensitive_fields: [".data ++ joinSep ",".data (f0 :: fs')
      ++ "]".data) = "sensitive_fields: [".data ++ joinSep ",".data (f0 :: fs')
      ++ "]".data := by
    rw [pyLower_append, pyLower_append, hJlow,
      show pyLower "sensitive_fields: [".data = "sensitive_fields: [".data from by decide,
      show pyLower "]".data = "]".data from by decide]
  show guardrailStepN r (pyLower (pyStrip _)) = _
  rw [hstrip, hlowL]
  unfold guardrailStepN
  have hshape : ("sensitive_fields: [".data ++ joinSep ",".data (f0 :: fs')
      ++ "]".data : Str)
      = "sensitive_fields:".data
        ++ (' ' :: '[' :: (joinSep ",".data (f0 :: fs') ++ "]".data)) := by
    rw [List.append_assoc]
    rfl
  rw [if_neg (by simp), if_neg (by simp [isPre, List.append_assoc]),
    if_neg (by simp [isPre, List.append_assoc]),
    if_pos (show isPre "sensitive_fields:".data _ = true from
      isPre_iff_append.mpr
        ⟨' ' :: '[' :: (joinSep ",".data (f0 :: fs') ++ "]".data), hshape⟩)]
  have hrm : removeAll "sensitive_fields:".data
      ("sensitive_fields: [".data ++ joinSep ",".data (f0 :: fs') ++ "]".data)
      = ' ' :: '[' :: (joinSep ",".data (f0 :: fs') ++ "]".data) := by
    rw [hshape,
      show ("sensitive_fields:".data : Str) = 's' :: "ensitive_fields:".data from rfl,
      removeAll_append_self]
    apply removeAll_not_mem (a := ':') (by decide)
    intro hmem
    rcases List.mem_cons.mp hmem with hsp | hmem2
    · exact absurd hsp (by decide)
    rcases List.mem_cons.mp hmem2 with hsp | hmem3
    · exact absurd hsp (by decide)
    rcases List.mem_append.mp hmem3 with hm | hm
    · exact hJcol hm
    · exact absurd hm (by decide)
  rw [hrm]
  have hstrip2 : pyStrip (' ' :: '[' :: (joinSep ",".data (f0 :: fs') ++ "]".data))
      = '[' :: (joinSep ",".data (f0 :: fs') ++ "]".data) :=
    pyStrip_cons_space (by show isSpaceChar '[' = false; decide)
      (by
        rw [show ('[' :: (joinSep ",".data (f0 :: fs') ++ "]".data) : Str)
            = ['['] ++ (joinSep ",".data (f0 :: fs') ++ "]".data) from rfl,
          getLastD_append (by simp [hBne]), getLastD_append hBne]
        decide)
  rw [hstrip2]
  rw [if_pos (show ('[' :: (joinSep ",".data (f0 :: fs') ++ "]".data) : Str) ≠ [] ∧
      ('[' :: (joinSep ",".data (f0 :: fs') ++ "]".data) : Str) ≠ "[]".data from by
    refine ⟨by simp, ?_⟩
    intro hbad
    rw [show ("[]".data : Str) = '[' :: [']'] from rfl] at hbad
    have h2 : joinSep ",".data (f0 :: fs') ++ "]".data = [']'] := by
      injection hbad
    have h3 := congrArg List.length h2
    rw [List.length_append] at h3
    simp at h3
    exact hJne h3)]
  rw [show ("]".data : Str) = [']'] from rfl,
    pyStripBrackets_wrap hJne hJnb1 hJnb2,
    show (",".data : Str) = [','] from rfl,
    splitOnChar_joinSep (by simp) (fun f hfm => (h f hfm).2.2.1),
    map_pyStrip_id (fun f hfm =>
      pyStrip_eq_self (h f hfm).1.2.2.2.1 (h f hfm).1.2.2.2.2)]

theorem step_fields_line_all (r : AuthVerdict) {fs : List Str}
    (h : ∀ f ∈ fs, goodField f) (hr0 : r.sensitive_fields = []) :
    guardrailStep r
      ("sensitive_fields: [".data ++ joinSep ",".data fs ++ "]".data)
      = { r with sensitive_fields := fs } := by
  cases fs with
  | nil =>
    rw [show guardrailStep r
        ("sensitive_fields: [".data ++ joinSep ",".data [] ++ "]".data) = r from rfl,
      ← hr0]
  | cons f0 fs' => exact step_fields_line r h

theorem step_query_line (r : AuthVerdict) {q : Str} (hg : goodFree q)
    (hne : q ≠ []) (hnull : q ≠ "null".data) :
    guardrailStep r ("sql_query: ".data ++ q) = { r with sql_query := some q } := by
  obtain ⟨hlow, hnl, hcol, hhead, hlast⟩ := hg
  obtain ⟨c, t, rfl⟩ : ∃ c t, q = c :: t := by
    cases q with
    | nil => exact absurd rfl hne
    | cons c t => exact ⟨c, t, rfl⟩
  have hcne : (c :: t : Str) ≠ [] := by simp
  have hstrip : pyStrip ("sql_query: ".data ++ (c :: t))
      = "sql_query: ".data ++ (c :: t) :=
    pyStrip_eq_self (by show isSpaceChar 's' = false; decide)
      (by rw [getLastD_append hcne]; exact hlast)
  have hlow2 : pyLower ("sql_query: ".data ++ (c :: t))
      = "sql_query: ".data ++ (c :: t) := by
    rw [pyLower_append, hlow,
      show pyLower "sql_query: ".data = "sql_query: ".data from by decide]
  show guardrailStepN r (pyLower (pyStrip ("sql_query: ".data ++ (c :: t)))) = _
  rw [hstrip, hlow2]
  unfold guardrailStepN
  rw [if_neg (by simp), if_neg (by simp [isPre]), if_neg (by simp [isPre]),
    if_neg (by simp [isPre]),
    if_pos (show isPre "sql_query:".data ("sql_query: ".data ++ (c :: t)) = true from
      isPre_iff_append.mpr ⟨' ' :: (c :: t), rfl⟩)]
  have hrm : removeAll "sql_query:".data ("sql_query: ".data ++ (c :: t))
      = ' ' :: (c :: t) := by
    rw [show ("sql_query: ".data ++ (c :: t) : Str)
        = "sql_query:".data ++ (' ' :: (c :: t)) from rfl,
      show ("sql_query:".data : Str) = 's' :: "ql_query:".data from rfl,
      removeAll_append_self]
    apply removeAll_not_mem (a := ':') (by decide)
    intro hmem
    rcases List.mem_cons.mp hmem with hsp | hmem2
    · exact absurd hsp (by decide)
    · exact hcol hmem2
  rw [hrm, pyStrip_cons_space hhead hlast,
    if_pos ⟨hcne, by rw [hlow]; exact hnull⟩]

theorem step_query_line_all (r : AuthVerdict) {o : Option Str}
    (h : goodQuery o) (hr0 : r.sql_query = none) :
    guardrailStep r ("sql_query: ".data ++ serializeQuery o)
      = { r with sql_query := o } := by
  cases o with
  | none =>
    rw [show guardrailStep r ("sql_query: ".data ++ serializeQuery none) = r from rfl,
      ← hr0]
  | some q =>
    obtain ⟨hg, hne, hnull⟩ := h
    exact step_query_line r hg hne hnull

/-- C9 amended: the round trip holds for every verdict already in the
parser normal form — reason lowercase, trimmed, single-line and
colon-free; every sensitive field additionally non-empty and free of
commas and brackets; the optional query in the same normal form,
non-empty and not the literal null.  Outside that normal form, in
particular for reason or query fields containing uppercase characters,
re-parsing the serialization does not return the original verdict (see
the counterexample). -/
theorem C9_roundtrip (v : AuthVerdict)
    (hr : goodFree v.reason)
    (hf : ∀ f ∈ v.sensitive_fields, goodField f)
    (hq : goodQuery v.sql_query) :
    parse_guardrail_response (serializeAuth v) = v := by
  have hsplit : splitOnChar '\n' (serializeAuth v) =
      ["authorized: ".data ++ (if v.authorized then "true".data else "false".data),
       "reason: ".data ++ v.reason,
       "sensitive_fields: [".data ++ joinSep ",".data v.sensitive_fields ++ "]".data,
       "sql_query: ".data ++ serializeQuery v.sql_query] := by
    rw [show serializeAuth v = joinSep ['\n']
        ["authorized: ".data ++ (if v.authorized then "true".data else "false".data),
         "reason: ".data ++ v.reason,
         "sensitive_fields: [".data ++ joinSep ",".data v.sensitive_fields
           ++ "]".data,
         "sql_query: ".data ++ serializeQuery v.sql_query] from rfl]
    apply splitOnChar_joinSep (by simp)
    intro l hl
    simp only [List.mem_cons, List.not_mem_nil, or_false] at hl
    rcases hl with rfl | rfl | rfl | rfl
    · cases v.authorized <;> decide
    · intro hc
      rcases List.mem_append.mp hc with hm | hm
      · exact absurd hm (by decide)
      · exact hr.2.1 hm
    · intro hc
      rcases List.mem_append.mp hc with hm | hm
      · rcases List.mem_append.mp hm with hm2 | hm2
        · exact absurd hm2 (by decide)
        · rcases mem_joinSep hm2 with hs | ⟨f, hfm, hcf⟩
          · exact absurd (List.mem_singleton.mp hs) (by decide)
          · exact (hf f hfm).1.2.1 hcf
      · exact absurd hm (by decide)
    · rcases hvq : v.sql_query with _ | q
      · decide
      · intro hc
        have hgq : goodFree q ∧ q ≠ [] ∧ q ≠ "null".data := by rw [hvq] at hq; exact hq
        rcases List.mem_append.mp hc with hm | hm
        · exact absurd hm (by decide)
        · exact hgq.1.2.1 hm
  show (splitOnChar '\n' (serializeAuth v)).foldl guardrailStep guardrailDefault = v
  rw [hsplit]
  show guardrailStep (guardrailStep (guardrailStep (guardrailStep guardrailDefault
    ("authorized: ".data ++ (if v.authorized then "true".data else "false".data)))
    ("reason: ".data ++ v.reason))
    ("sensitive_fields: [".data ++ joinSep ",".data v.sensitive_fields ++ "]".data))
    ("sql_query: ".data ++ serializeQuery v.sql_query) = v
  rw [step_auth_line, step_reason_line _ hr, step_fields_line_all _ hf rfl,
    step_query_line_all _ hq rfl]

/-- Witness: the round trip evaluated on a concrete normal-form verdict
with authorization, two sensitive fields and a query. -/
theorem C9_roundtrip_witness :
    parse_guardrail_response (serializeAuth
      { authorized := true, reason := "user requested own address".data,
        sensitive_fields := ["address".data, "ssn".data],
        sql_query := some "select address from users where id = 7".data })
      = { authorized := true, reason := "user requested own address".data,
          sensitive_fields := ["address".data, "ssn".data],
          sql_query := some "select address from users where id = 7".data } :=
  C9_roundtrip _ (by decide) (by decide) (by decide)

/-! ## C10 — value fields are lowercase, but default reasons are not. -/

/-- C10 counterexample: the reason field of a parsed verdict can contain
uppercase characters — the fallback default "Invalid response format" is
not lowercased, e.g. on empty oracle text. -/
theorem C10_counterexample :
    (parse_guardrail_response "".data).reason = "Invalid response format".data ∧
    ∃ c ∈ (parse_guardrail_response "".data).reason, isUpperChar c = true := by
  decide

theorem noUpper_val {line : Str} (hl : noUpper line) (pat : Str) :
    noUpper (pyStrip (removeAll pat line)) :=
  noUpper_of_subset (fun _ hc => mem_removeAll (mem_pyStrip hc)) hl

theorem noUpper_fields {line : Str} (hl : noUpper line) (pat : Str) :
    ∀ f ∈ (splitOnChar ','
        (pyStripBrackets (pyStrip (removeAll pat line)))).map pyStrip,
      noUpper f := by
  intro f hf
  obtain ⟨f', hf', rfl⟩ := List.mem_map.mp hf
  intro c hc
  exact hl c (mem_removeAll (mem_pyStrip
    (mem_pyStripBrackets (mem_splitOnChar hf' c (mem_pyStrip hc)))))

theorem guardrailStepN_noUpper {r : AuthVerdict} {line : Str} (hl : noUpper line)
    (h1 : ∀ q, r.sql_query = some q → noUpper q)
    (h2 : ∀ f ∈ r.sensitive_fields, noUpper f) :
    (∀ q, (guardrailStepN r line).sql_query = some q → noUpper q) ∧
    (∀ f ∈ (guardrailStepN r line).sensitive_fields, noUpper f) := by
  unfold guardrailStepN
  repeat' split
  all_goals refine ⟨?_, ?_⟩
  all_goals first
    | exact h1
    | exact h2
    | (intro q hq
       injection hq with hv
       rw [← hv]
       exact noUpper_val hl _)
    | (exact noUpper_fields hl _)

theorem guardrailFold_noUpper : ∀ (lines : List Str) (r : AuthVerdict),
    (∀ q, r.sql_query = some q → noUpper q) →
    (∀ f ∈ r.sensitive_fields, noUpper f) →
    (∀ q, (lines.foldl guardrailStep r).sql_query = some q → noUpper q) ∧
    (∀ f ∈ (lines.foldl guardrailStep r).sensitive_fields, noUpper f) := by
  intro lines
  induction lines with
  | nil => intro r h1 h2; exact ⟨h1, h2⟩
  | cons l ls ih =>
    intro r h1 h2
    have hstep := guardrailStepN_noUpper (noUpper_pyLower (pyStrip l)) h1 h2
    exact ih (guardrailStep r l) hstep.1 hstep.2

theorem verificationStepN_noUpper {r : SafetyVerdict} {line : Str} (hl : noUpper line)
    (h1 : ∀ q, r.suggested_query = some q → noUpper q) :
    ∀ q, (verificationStepN r line).suggested_query = some q → noUpper q := by
  unfold verificationStepN
  repeat' split
  all_goals first
    | exact h1
    | (intro q hq
       injection hq with hv
       rw [← hv]
       exact noUpper_val hl _)

theorem verificationFold_noUpper : ∀ (lines : List Str) (r : SafetyVerdict),
    (∀ q, r.suggested_query = some q → noUpper q) →
    ∀ q, (lines.foldl verificationStep r).suggested_query = some q → noUpper q := by
  intro lines
  induction lines with
  | nil => intro r h1; exact h1
  | cons l ls ih =>
    intro r h1
    exact ih (verificationStep r l)
      (verificationStepN_noUpper (noUpper_pyLower (pyStrip l)) h1)

theorem outputStepN_noUpper {r : SanVerdict} {line : Str} (hl : noUpper line)
    (h1 : ∀ q, r.sanitized_response = some q → noUpper q)
    (h2 : ∀ q, r.original_response = some q → noUpper q) :
    (∀ q, (outputStepN r line).sanitized_response = some q → noUpper q) ∧
    (∀ q, (outputStepN r line).original_response = some q → noUpper q) := by
  unfold outputStepN
  repeat' split
  all_goals refine ⟨?_, ?_⟩
  all_goals first
    | exact h1
    | exact h2
    | (intro q hq
       injection hq with hv
       rw [← hv]
       exact noUpper_val hl _)

theorem outputFold_noUpper : ∀ (lines : List Str) (r : SanVerdict),
    (∀ q, r.sanitized_response = some q → noUpper q) →
    (∀ q, r.original_response = some q → noUpper q) →
    (∀ q, (lines.foldl outputStep r).sanitized_response = some q → noUpper q) ∧
    (∀ q, (lines.foldl outputStep r).original_response = some q → noUpper q) := by
  intro lines
  induction lines with
  | nil => intro r h1 h2; exact ⟨h1, h2⟩
  | cons l ls ih =>
    intro r h1 h2
    have hstep := outputStepN_noUpper (noUpper_pyLower (pyStrip l)) h1 h2
    exact ih (outputStep r l) hstep.1 hstep.2

theorem combinedStepN_noUpper {r : CombinedVerdict} {line : Str} (hl : noUpper line)
    (h1 : ∀ q, r.sql_query = some q → noUpper q) :
    ∀ q, (combinedStepN r line).sql_query = some q → noUpper q := by
  unfold combinedStepN
  repeat' split
  all_goals first
    | exact h1
    | (intro q hq
       injection hq with hv
       rw [← hv]
       exact noUpper_val hl _)

theorem combinedFold_noUpper : ∀ (lines : List Str) (r : CombinedVerdict),
    (∀ q, r.sql_query = some q → noUpper q) →
    ∀ q, (lines.foldl combinedStep r).sql_query = some q → noUpper q := by
  intro lines
  induction lines with
  | nil => intro r h1; exact h1
  | cons l ls ih =>
    intro r h1
    exact ih (combinedStep r l)
      (combinedStepN_noUpper (noUpper_pyLower (pyStrip l)) h1)

theorem toolRun_executed (inp : Str) (cO : Str → Except Str Str)
    (db : Str → DBOutcome) (ag : Str → Except Str Str) :
    ∀ q, (toolRun inp cO db ag).executedQuery = some q →
      ∃ ctext, cO inp = Except.ok ctext ∧
        (parse_combined_response ctext).sql_query = some q := by
  rcases hcO : cO inp with e | ctext <;> simp only [toolRun, hcO]
  · intro q h
    simp at h
  · split
    · intro q h
      simp at h
    · rcases hsq : (parse_combined_response ctext).sql_query with _ | q0 <;>
        simp only [hsq]
      · rcases hag : ag inp with e | out <;> simp only [hag] <;>
          (intro q h; simp at h)
      · split
        · intro q h
          simp at h
        · intro q h
          simp only at h
          refine ⟨ctext, rfl, ?_⟩
          rw [hsq, h]

/-- C10 amended: every optional or set-valued string field of a parsed
verdict is free of ASCII uppercase, because such fields are only ever set
from fully lowercased lines — in particular the query the combined (tool)
pipeline hands to query_database is always lowercase.  The reason fields,
however, may keep their uppercase defaults (see the counterexample), so
the claim does not hold for every string-valued field. -/
theorem C10_lowercase_fields :
    (∀ s q, (parse_guardrail_response s).sql_query = some q → noUpper q) ∧
    (∀ s f, f ∈ (parse_guardrail_response s).sensitive_fields → noUpper f) ∧
    (∀ s q, (parse_verification_response s).suggested_query = some q → noUpper q) ∧
    (∀ s q, (parse_output_guardrail_response s).sanitized_response = some q →
      noUpper q) ∧
    (∀ s q, (parse_output_guardrail_response s).original_response = some q →
      noUpper q) ∧
    (∀ s q, (parse_combined_response s).sql_query = some q → noUpper q) ∧
    (∀ (inp : Str) (cO : Str → Except Str Str) (db : Str → DBOutcome)
      (ag : Str → Except Str Str) (q : Str),
      (toolRun inp cO db ag).executedQuery = some q → noUpper q) := by
  have hauth := fun s => guardrailFold_noUpper (splitOnChar '\n' s) guardrailDefault
    (fun q h => by simp [guardrailDefault] at h) (fun f hf => by simp [guardrailDefault] at hf)
  have hver := fun s => verificationFold_noUpper (splitOnChar '\n' s) verificationDefault
    (fun q h => by simp [verificationDefault] at h)
  have hout := fun s => outputFold_noUpper (splitOnChar '\n' s) outputDefault
    (fun q h => by simp [outputDefault] at h) (fun q h => by simp [outputDefault] at h)
  have hcomb := fun s => combinedFold_noUpper (splitOnChar '\n' s) combinedDefault
    (fun q h => by simp [combinedDefault] at h)
  refine ⟨fun s => (hauth s).1, fun s f hf => (hauth s).2 f hf, hver,
    fun s => (hout s).1, fun s => (hout s).2, hcomb, ?_⟩
  intro inp cO db ag q hq
  obtain ⟨ctext, _, hsq⟩ := toolRun_executed inp cO db ag q hq
  exact hcomb ctext q hsq

/-- Witness: the lowercase invariant applied to a concrete parsed query. -/
theorem C10_lowercase_fields_witness :
    (parse_guardrail_response "SQL_QUERY: SELECT 1".data).sql_query
      = some "select 1".data ∧
    noUpper "select 1".data :=
  ⟨by decide,
    C10_lowercase_fields.1 "SQL_QUERY: SELECT 1".data "select 1".data (by decide)⟩

end Guardrails
